import Mathlib

/-!
Verification development for the fireyourconsultant repository.

The file shallowly embeds the parts of the code that the checked properties
talk about:

* the color math helpers of `src/fyc/pptx_gen/generator.py`
  (`lighten_color`, `darken_color`),
* the stat parsing of `PptxGenerator._add_stats_slide`,
* the image selection of `PptxGenerator._get_image_for_category`,
* the slide dispatch and slide counting of `PptxGenerator.generate`,
* the palette-role assignment of
  `PptxTemplateExtractor._extract_shape_colors` and the rest of
  `PptxTemplateExtractor.extract` (`src/fyc/template/extractor.py`),
* the brand-profile merge step used by `api/routes.py`.

Machine floats of the source are modelled by exact rationals; the claims
checked here only evaluate the affected formulas at points where float and
rational arithmetic agree exactly (factors 0 and 1, fixed byte values).
Strings are modelled by their character lists.
-/

/-! ### Generic string helpers (Python string semantics) -/

/-- Characters treated as whitespace by Python `str.strip()` / `\s` / `str.split()`
(ASCII subset; the repository only feeds ASCII whitespace through these paths). -/
def isPySpace (c : Char) : Bool :=
  c = ' ' || c = '\t' || c = '\x0a' || c = '\x0d' || c = '\x0b' || c = '\x0c'

/-- Python `str.strip()` on a character list. -/
def pyStrip (s : List Char) : List Char :=
  ((s.dropWhile isPySpace).reverse.dropWhile isPySpace).reverse

/-- Split a list at the first occurrence of `sep`, like Python
`s.split(sep, 1)` when `sep in s`; `none` when `sep` does not occur. -/
def splitFirst (sep : List Char) : List Char → Option (List Char × List Char)
  | [] => if sep.isEmpty then some ([], []) else none
  | c :: rest =>
    if sep.isPrefixOf (c :: rest) then some ([], (c :: rest).drop sep.length)
    else
      match splitFirst sep rest with
      | some (l, r) => some (c :: l, r)
      | none => none

/-- Python `sub in s` substring containment. -/
def containsSub (sep s : List Char) : Bool :=
  (splitFirst sep s).isSome

/-- Python `s.endswith(suffix)`. -/
def pyEndsWith (s suffix : String) : Bool :=
  suffix.data.isSuffixOf s.data

/-- Python `s.startswith(pre)`. -/
def pyStartsWith (s pre : String) : Bool :=
  pre.data.isPrefixOf s.data

/-- Python `s.lower()` (ASCII). -/
def pyLower (s : String) : String :=
  ⟨s.data.map Char.toLower⟩

/-- Python `s.upper()` (ASCII). -/
def pyUpper (s : String) : String :=
  ⟨s.data.map Char.toUpper⟩

/-- Python slice `s[a:b]` on a character list (for `a ≤ b`). -/
def pySlice (s : List Char) (a b : Nat) : List Char :=
  (s.drop a).take (b - a)

/-- Python `s.split()[0]`: the first whitespace-separated token of `s`
(`s.split()` lists the maximal non-whitespace runs, so its head is the
first such run).  `none` models the `IndexError` raised when the string
holds no token, i.e. when it is entirely whitespace. -/
def pySplitHead (s : String) : Option String :=
  match s.data.dropWhile isPySpace with
  | [] => none
  | c :: rest => some ⟨(c :: rest).takeWhile (fun x => !isPySpace x)⟩

/-! ### Hex parsing and formatting -/

/-- Value of one hexadecimal digit, upper or lower case (`int(c, 16)`),
written over code points: 48-57 are the decimal digits, 97-102 and 65-70
the lower and upper hex letters. -/
def hexDigitVal (c : Char) : Option Nat :=
  let n := c.toNat
  if 48 ≤ n ∧ n ≤ 57 then some (n - 48)
  else if 97 ≤ n ∧ n ≤ 102 then some (n - 87)
  else if 65 ≤ n ∧ n ≤ 70 then some (n - 55)
  else none

/-- Python `int(s, 16)` on a plain digit string: `none` models `ValueError`
(empty string or a non-hex character). -/
def parseHexStr (s : List Char) : Option Nat :=
  match s with
  | [] => none
  | _ =>
    s.foldl
      (fun acc c =>
        match acc, hexDigitVal c with
        | some n, some d => some (16 * n + d)
        | _, _ => none)
      (some 0)

/-- Lowercase hex rendering of a natural number padded to two digits:
Python `f"{n:02x}"` for `n ≥ 0`. -/
def pyHex2 (n : Nat) : List Char :=
  let ds := Nat.toDigits 16 n
  if ds.length = 1 then '0' :: ds else ds

/-- Python `int()` truncation toward zero of an exact rational. -/
def pyInt (q : ℚ) : ℤ :=
  Int.tdiv q.num q.den

/-- Python `s.lstrip("#")`: drop every leading hash. -/
def dropHash (s : List Char) : List Char :=
  s.dropWhile (fun c => c = '#')

/-! ### Color math of `pptx_gen/generator.py` -/

/-- Embedding of `lighten_color` (generator.py lines 38-49): parse the three
channels after stripping leading hashes, interpolate each toward 255 by
`factor`, and reformat as lowercase `#rrggbb`.  `none` models the
`ValueError` Python raises on non-hex input.  The arithmetic is exact
rational in place of the source's float; truncation toward zero matches
Python `int()` (for `factor ∈ [0, 1]` all intermediate values are
nonnegative, as in every use in the repository). -/
def lighten_color (hex_color : String) (factor : ℚ) : Option String :=
  match parseHexStr (pySlice (dropHash hex_color.data) 0 2),
      parseHexStr (pySlice (dropHash hex_color.data) 2 4),
      parseHexStr (pySlice (dropHash hex_color.data) 4 6) with
  | some r, some g, some b =>
    let r' := pyInt ((r : ℚ) + (255 - (r : ℚ)) * factor)
    let g' := pyInt ((g : ℚ) + (255 - (g : ℚ)) * factor)
    let b' := pyInt ((b : ℚ) + (255 - (b : ℚ)) * factor)
    some ⟨'#' :: (pyHex2 r'.toNat ++ pyHex2 g'.toNat ++ pyHex2 b'.toNat)⟩
  | _, _, _ => none

/-- Embedding of `darken_color` (generator.py lines 52-58): each channel is
scaled by `1 - factor`. -/
def darken_color (hex_color : String) (factor : ℚ) : Option String :=
  match parseHexStr (pySlice (dropHash hex_color.data) 0 2),
      parseHexStr (pySlice (dropHash hex_color.data) 2 4),
      parseHexStr (pySlice (dropHash hex_color.data) 4 6) with
  | some r, some g, some b =>
    let r' := pyInt ((r : ℚ) * (1 - factor))
    let g' := pyInt ((g : ℚ) * (1 - factor))
    let b' := pyInt ((b : ℚ) * (1 - factor))
    some ⟨'#' :: (pyHex2 r'.toNat ++ pyHex2 g'.toNat ++ pyHex2 b'.toNat)⟩
  | _, _, _ => none

/-- Canonical lowercase `#rrggbb` rendering of an RGB triple; the valid
6-digit lowercase hex color strings are exactly its values. -/
def fmtHexColor (r g b : Fin 256) : String :=
  ⟨'#' :: (pyHex2 r.val ++ pyHex2 g.val ++ pyHex2 b.val)⟩

/-! ### Data model of `fyc/models.py` (template-extraction side) -/

/-- Theme colors of `models.ThemeColors` with their built-in defaults. -/
structure ThemeColors where
  dk1 : String := "#000000"
  lt1 : String := "#FFFFFF"
  dk2 : String := "#1F497D"
  lt2 : String := "#EEECE1"
  accent1 : String := "#4F81BD"
  accent2 : String := "#C0504D"
  accent3 : String := "#9BBB59"
  accent4 : String := "#8064A2"
  accent5 : String := "#4BACC6"
  accent6 : String := "#F79646"
  hlink : String := "#0000FF"
  folHlink : String := "#800080"
deriving DecidableEq

/-- Theme fonts of `models.ThemeFonts` with their built-in defaults. -/
structure ThemeFonts where
  major_latin : String := "Calibri"
  minor_latin : String := "Calibri"
  major_ea : String := ""
  minor_ea : String := ""
  major_cs : String := ""
  minor_cs : String := ""
deriving DecidableEq

/-- Background style of `models.BackgroundStyle` (float angle as exact ℚ). -/
structure BackgroundStyle where
  fill_type : String := "solid"
  solid_color : Option String := none
  gradient_colors : List String := []
  gradient_angle : ℚ := 0
  picture_path : Option String := none
deriving DecidableEq

/-- Placeholder description of `models.PlaceholderInfo` (inches/points as ℚ).
The Python field `type` is called `phType` here (`type` is reserved in Lean). -/
structure PlaceholderInfo where
  idx : Int
  phType : String
  left : ℚ
  top : ℚ
  width : ℚ
  height : ℚ
  font_name : Option String := none
  font_size : Option ℚ := none
  font_color : Option String := none
  font_bold : Option Bool := none
deriving DecidableEq

/-- Layout description of `models.ExtractedLayout`.  The Python `shapes`
field (a list of raw dicts) is never populated by the extractor and is
omitted. -/
structure ExtractedLayout where
  name : String
  idx : Nat
  placeholders : List PlaceholderInfo := []
  background : Option BackgroundStyle := none
deriving DecidableEq

/-- Observed-color palette of `models.ExtractedColorPalette`. -/
structure ExtractedColorPalette where
  primary : Option String := none
  secondary : Option String := none
  accent : Option String := none
  background : Option String := none
  text : Option String := none
  all_colors : List String := []
deriving DecidableEq

/-! ### Parsed-package model of the python-pptx / zipfile boundary

`PptxTemplateExtractor` reads the uploaded bytes exclusively through
python-pptx (`Presentation(io.BytesIO(...))`) and `zipfile.ZipFile`.  The
structures below model what those external libraries hand back for a
package that parses: the theme part, the shapes of master/layouts/slides
with their solid RGB fills, RGB text-run colors, RGB line colors and font
names, the layout placeholders, and the archive's file listing.  An RGB
color is a byte triple, rendered `"#RRGGBB"` (uppercase) exactly as the hash-prefixed f-string formatting of an `RGBColor` does in the source. -/

/-- One RGB byte triple as python-pptx `RGBColor` carries it. -/
structure Rgb where
  r : Fin 256
  g : Fin 256
  b : Fin 256
deriving DecidableEq

/-- Uppercase two-digit hex of one byte (`RGBColor.__str__` digit pair). -/
def hexByteUpper (n : Nat) : List Char :=
  (pyHex2 n).map Char.toUpper

/-- Rendering of an `RGBColor` behind a hash as the source f-string does it: uppercase hex digits (already upper case, so the source's `.upper()` is the
identity on it). -/
def rgbObs (c : Rgb) : String :=
  ⟨'#' :: (hexByteUpper c.r.val ++ hexByteUpper c.g.val ++ hexByteUpper c.b.val)⟩

/-- One text run: font name (`run.font.name`) and, when the run carries an
explicit RGB font color, that color. -/
structure RunXml where
  fontName : Option String := none
  colorRGB : Option Rgb := none
deriving DecidableEq

/-- One paragraph: paragraph-level font name and its runs. -/
structure ParaXml where
  fontName : Option String := none
  runs : List RunXml := []
deriving DecidableEq

/-- One shape as the extractor reads it: an explicit solid RGB fill when
present, an explicit solid RGB line color when present, and its text
paragraphs (empty when the shape has no text frame). -/
structure ShapeXml where
  solidFillRGB : Option Rgb := none
  lineSolidRGB : Option Rgb := none
  paragraphs : List ParaXml := []
deriving DecidableEq

/-- A fill as `FillFormat` exposes it: solid (with its RGB fore color when
the color is an explicit RGB), gradient (stop colors and angle), or some
other fill type. -/
inductive RawFill
  | solidFill (rgb : Option Rgb)
  | gradientFill (stops : List (Option Rgb)) (angle : Option ℚ)
  | otherFill (typeName : String)
deriving DecidableEq

/-- Font information of one placeholder paragraph. -/
structure ParaFontXml where
  fontName : Option String := none
  fontSize : Option ℚ := none
  fontBold : Option Bool := none
deriving DecidableEq

/-- One placeholder of a slide layout (geometry in inches, `None` → absent). -/
structure PlaceholderXml where
  idx : Int := 0
  phType : String := ""
  left : Option ℚ := none
  top : Option ℚ := none
  width : Option ℚ := none
  height : Option ℚ := none
  paragraphs : List ParaFontXml := []
deriving DecidableEq

/-- The slide master: optional background fill and its shapes. -/
structure MasterXml where
  background : Option RawFill := none
  shapes : List ShapeXml := []
deriving DecidableEq

/-- One slide layout of the master. -/
structure LayoutXml where
  layoutName : String := ""
  background : Option RawFill := none
  shapes : List ShapeXml := []
  placeholders : List PlaceholderXml := []
deriving DecidableEq

/-- One slide. -/
structure SlideXml where
  background : Option RawFill := none
  shapes : List ShapeXml := []
deriving DecidableEq

/-- The theme part: the `clrScheme` entries that are present, keyed by slot
name, each carrying the optional `srgbClr/@val` and `sysClr/@lastClr`
attributes, plus the `fontScheme` latin typefaces. -/
structure ThemeXml where
  clrScheme : List (String × Option String × Option String) := []
  majorLatin : Option String := none
  minorLatin : Option String := none
deriving DecidableEq

/-- A parsed deck package (`theme = none` models a missing or unreadable theme part,
i.e. `_get_theme_xml` returning `None`). -/
structure PptxPackage where
  theme : Option ThemeXml := none
  master : MasterXml := {}
  layouts : List LayoutXml := []
  slides : List SlideXml := []
  mediaFiles : List String := []
deriving DecidableEq

/-- Input bytes at the extractor boundary: either bytes that python-pptx /
zipfile reject (`Presentation(io.BytesIO(content))` raises — empty bytes,
non-zip bytes, a zip that is no package), or bytes that parse to a package. -/
inductive TemplateBytes
  | malformed
  | parsed (pkg : PptxPackage)
deriving DecidableEq

/-- Template profile of `models.TemplateProfile` with its defaults. -/
structure TemplateProfile where
  source_file : String := ""
  theme_colors : ThemeColors := {}
  theme_fonts : ThemeFonts := {}
  master_background : Option BackgroundStyle := none
  layouts : List ExtractedLayout := []
  extracted_images : List String := []
  extracted_palette : ExtractedColorPalette := {}
  template_bytes : Option TemplateBytes := none
deriving DecidableEq
/-! ### Data model of `fyc/models.py` (brand and slide side) -/

/-- Image categories of `models.ImageCategory`. -/
inductive ImageCategory
  | team
  | product
  | office
  | abstract
  | logo
  | hero
  | customer
  | data
  | user_upload
  | unknown
deriving DecidableEq

/-- One scraped or uploaded image, `models.ScrapedImage` (floats as ℚ). -/
structure ScrapedImage where
  url : String := ""
  alt_text : String := ""
  width : Nat := 0
  height : Nat := 0
  local_path : Option String := none
  category : ImageCategory := .unknown
  description : String := ""
  relevance_score : ℚ := 0
deriving DecidableEq

/-- Brand palette of `models.BrandColors` with its defaults. -/
structure BrandColors where
  primary : String := "#1a365d"
  secondary : String := "#2d3748"
  accent : String := "#3182ce"
  background : String := "#ffffff"
  text : String := "#1a202c"
  text_light : String := "#718096"
deriving DecidableEq

/-- Brand fonts of `models.BrandFonts` with its defaults. -/
structure BrandFonts where
  heading : String := "Arial"
  body : String := "Arial"
  heading_fallback : String := "Helvetica"
  body_fallback : String := "Helvetica"
deriving DecidableEq

/-- Brand voice of `models.BrandVoice` (floats as ℚ). -/
structure BrandVoice where
  formality : ℚ := 1/2
  technicality : ℚ := 1/2
  enthusiasm : ℚ := 1/2
  sentence_length : String := "medium"
  key_phrases : List String := []
  terminology : List String := []
  tone_description : String := ""
deriving DecidableEq

/-- Complete brand profile, `models.BrandProfile`. -/
structure BrandProfile where
  company_name : String := ""
  tagline : String := ""
  language : String := "en"
  colors : BrandColors := {}
  fonts : BrandFonts := {}
  voice : BrandVoice := {}
  logo_path : Option String := none
  images : List ScrapedImage := []
  raw_text_samples : List String := []
  template_profile : Option TemplateProfile := none
deriving DecidableEq

/-- The nine slide layout tags of `models.SlideLayout`. -/
inductive SlideLayout
  | title
  | bullets
  | two_column
  | image_left
  | image_right
  | section_divider
  | quote
  | stats
  | thank_you
deriving DecidableEq

/-- One metric card, `models.Stat`. -/
structure Stat where
  value : String := ""
  label : String := ""
  description : String := ""
deriving DecidableEq

/-- Content for one slide, `models.SlideContent`. -/
structure SlideContent where
  layout : SlideLayout
  title : String := ""
  subtitle : String := ""
  bullets : List String := []
  body_text : String := ""
  left_content : Option String := none
  right_content : Option String := none
  quote : String := ""
  quote_author : String := ""
  stats : List Stat := []
  image_category : Option ImageCategory := none
  speaker_notes : String := ""
deriving DecidableEq

/-- A presentation, `models.Presentation`. -/
structure Presentation where
  title : String
  subtitle : String := ""
  slides : List SlideContent := []
deriving DecidableEq

/-! ### Stat parsing of `PptxGenerator._add_stats_slide` (generator.py 809-828) -/

/-- Character class `[\d$%,.]` of the stat regex. -/
def pyStatClass (c : Char) : Bool :=
  c.isDigit || c = '$' || c = '%' || c = ',' || c = '.'

/-- Python `\w` (ASCII range, which is all the repository feeds it). -/
def pyWordChar (c : Char) : Bool :=
  c.isAlphanum || c = '_'

/-- The separator `" - "` of the first parsing branch. -/
def sepDash : List Char :=
  [' ', '-', ' ']

/-- Embedding of `re.match(r'^([\d$%,.]+\w*)\s*(.*)$', bullet)`.

The regex matches greedily: a nonempty run of `[\d$%,.]`, then a run of
word characters, then a run of whitespace (which may contain newlines),
then `(.*)$`.  Since `.` cannot cross a newline and `$` only matches at the
end or before a final newline, the match fails exactly when the remainder
after the whitespace run still holds a newline that is not its last
character; backtracking cannot rescue such a string because shrinking any
of the greedy runs only moves the start of `(.*)` to the left.  On success,
group 1 is the class run plus the word run and group 2 the remainder
without a final newline.

The tail after the class run, the word run and the whitespace run: -/
def statRegexTail (s : List Char) : List Char :=
  ((s.dropWhile pyStatClass).dropWhile pyWordChar).dropWhile isPySpace

/-- Group 2 of the stat regex: the tail after the greedy whitespace run,
without a final newline (matched by `$` rather than by `.*`). -/
def statRegexCore (s : List Char) : List Char :=
  if (statRegexTail s).getLast? = some '\x0a' then (statRegexTail s).dropLast
  else statRegexTail s

def statRegex (s : List Char) : Option Stat :=
  if (s.takeWhile pyStatClass).isEmpty then none
  else if decide ('\x0a' ∈ statRegexCore s) then none
  else some { value := ⟨s.takeWhile pyStatClass ++ (s.dropWhile pyStatClass).takeWhile pyWordChar⟩,
              label := ⟨statRegexCore s⟩ }

/-- Parsing of a single bullet of `_add_stats_slide`:
`" - "` split wins, else the leading-token regex is tried when the first
character is a digit or in `"$%"`, else the bullet yields no stat.
`Except.error ()` models the `IndexError` that `bullet[0]` raises on an
empty bullet. -/
def parseStatBullet (b : String) : Except Unit (Option Stat) :=
  match splitFirst sepDash b.data with
  | some (l, r) => .ok (some { value := ⟨pyStrip l⟩, label := ⟨pyStrip r⟩ })
  | none =>
    match b.data with
    | [] => .error ()
    | c :: _ =>
      if c.isDigit || c = '$' || c = '%' then .ok (statRegex b.data)
      else .ok none

/-- The parsing loop over the first four bullets, appending each parsed
stat in order. -/
def parseBulletsAsStats : List String → Except Unit (List Stat)
  | [] => .ok []
  | b :: rest =>
    match parseStatBullet b with
    | .error e => .error e
    | .ok none => parseBulletsAsStats rest
    | .ok (some s) =>
      match parseBulletsAsStats rest with
      | .error e => .error e
      | .ok l => .ok (s :: l)

/-- The `stats_data` computation of `_add_stats_slide`: explicit stats win;
else nonempty bullets are parsed (`bullets[:4]`); else no stats. -/
def parseStatsData (stats : List Stat) (bullets : List String) : Except Unit (List Stat) :=
  match stats with
  | _ :: _ => .ok stats
  | [] =>
    match bullets with
    | [] => .ok []
    | _ :: _ => parseBulletsAsStats (bullets.take 4)

/-- Reference definition for C4, written from the spec's own words (§4.5):
a bullet containing `" - "` is split at the first separator into stripped
value and label; otherwise a bullet starting with a digit or a
currency/percent symbol yields the leading numeric-like token (digits,
comma, period, dollar, percent, then trailing unit letters) as value and
the text after the intervening whitespace as label; anything else yields
no stat. -/
def specStatParse (b : String) : Option Stat :=
  match splitFirst sepDash b.data with
  | some (l, r) => some { value := ⟨pyStrip l⟩, label := ⟨pyStrip r⟩ }
  | none =>
    match b.data with
    | [] => none
    | c :: _ =>
      if c.isDigit || c = '$' || c = '%' then
        some { value := ⟨b.data.takeWhile pyStatClass ++
                 (b.data.dropWhile pyStatClass).takeWhile pyWordChar⟩,
               label := ⟨((b.data.dropWhile pyStatClass).dropWhile pyWordChar).dropWhile isPySpace⟩ }
      else none
/-! ### Image selection, `PptxGenerator._get_image_for_category` (generator.py 1034-1074) -/

/-- The local path of an image, `""` when absent (Python reads the optional
string; `None` and `""` are both falsy there). -/
def pathOf (img : ScrapedImage) : String :=
  img.local_path.getD ""

/-- Python truthiness of `img.local_path`. -/
def truthyPath (img : ScrapedImage) : Bool :=
  !(pathOf img == "")

/-- The `.svg` test `img.local_path.endswith('.svg')`. -/
def isSvgImg (img : ScrapedImage) : Bool :=
  pyEndsWith (pathOf img) ".svg"

/-- The per-image test of the unused-image loops:
`if img.local_path and img.local_path not in self.used_images:` followed by
`if not img.local_path.endswith('.svg'):` (a truthy unused svg is skipped
and the loop continues). -/
def usableImg (used : List String) (img : ScrapedImage) : Bool :=
  truthyPath img && !(decide (pathOf img ∈ used)) && !isSvgImg img

/-- The per-image test of the reuse loops:
`if img.local_path and not img.local_path.endswith('.svg'):`. -/
def reusableImg (img : ScrapedImage) : Bool :=
  truthyPath img && !isSvgImg img

/-- The per-category image list `self.images_by_category[c]`: the lookup
dict is built by `_build_image_lookup` walking `brand.images` in order, so
each category maps to the subsequence of `brand.images` in that category
(and a category not in the dict maps to the empty list). -/
def byCat (imgs : List ScrapedImage) (c : ImageCategory) : List ScrapedImage :=
  imgs.filter (fun i => decide (i.category = c))

/-- Embedding of `_get_image_for_category`.  State is the used-path set
(modelled as a list, membership only); the returned pair is the selected
image (if any) and the updated used set.  Reuse hits do not mark the path
used, exactly as in the source. -/
def getImageForCategory (imgs : List ScrapedImage) (used : List String)
    (category : Option ImageCategory) : Option ScrapedImage × List String :=
  match (byCat imgs .user_upload).find? (usableImg used) with
  | some img => (some img, pathOf img :: used)
  | none =>
    match category with
    | none =>
      match ((byCat imgs .hero).find? (usableImg used)).orElse
          (fun _ => ((byCat imgs .product).find? (usableImg used)).orElse
            (fun _ => ((byCat imgs .team).find? (usableImg used)).orElse
              (fun _ => (byCat imgs .office).find? (usableImg used)))) with
      | some img => (some img, pathOf img :: used)
      | none => (none, used)
    | some c =>
      match (byCat imgs c).find? (usableImg used) with
      | some img => (some img, pathOf img :: used)
      | none =>
        match (byCat imgs .user_upload).find? reusableImg with
        | some img => (some img, used)
        | none =>
          match (byCat imgs c).find? reusableImg with
          | some img => (some img, used)
          | none => (none, used)

/-! ### Slide dispatch and slide counting of `PptxGenerator.generate`

Each `_add_*_slide` composer calls `_create_blank_slide` (which appends one
slide to the deck) and then populates it; the render of one
`SlideContent` is abstracted to the list of deck slides it appends,
tagged with what the checked claims observe: the bullet composer's
alternating background treatment, the stats cards, the chosen image.
`_add_stats_slide` first creates its slide and only then parses; on zero
parsed stats it delegates to `_add_bullet_slide`, which creates a second
deck slide — the first one stays behind with only background, accent bar
and title (`statsHeaderSlide` below). -/

/-- The two alternating visual treatments of `_add_bullet_slide`:
`gradientCorner` is the even-count style A (light gradient plus corner
accent oval), `leftAccentBar` the odd-count style B (solid left accent
bar). -/
inductive BulletStyle
  | gradientCorner
  | leftAccentBar
deriving DecidableEq

/-- One deck slide as the checked claims observe it. -/
inductive SlideRender
  | titleSlide
  | bulletSlide (style : BulletStyle)
  | twoColumnSlide
  | imageLeftSlide (img : Option ScrapedImage)
  | imageRightSlide (img : Option ScrapedImage)
  | sectionDividerSlide
  | quoteSlide
  | statsSlide (cards : List Stat)
  | statsHeaderSlide
  | thankYouSlide
deriving DecidableEq

/-- Call-scoped renderer state: the used-image set and the slide counter
(`self.used_images`, `self.slide_count`). -/
structure GenState where
  used : List String := []
  count : Nat := 0
deriving DecidableEq

/-- The toggle `use_accent_style = (self.slide_count % 2 == 0)` of `_add_bullet_slide`. -/
def styleOfCount (n : Nat) : BulletStyle :=
  if n % 2 = 0 then .gradientCorner else .leftAccentBar

/-- Embedding of `_add_slide` (dispatch) together with the composer bodies,
returning the deck slides appended for `content` and the updated used-image
set.  `Except.error ()` propagates the stats-parsing `IndexError`. -/
def renderSlide (brand : BrandProfile) (st : GenState) (content : SlideContent) :
    Except Unit (List SlideRender × List String) :=
  match content.layout with
  | .title => .ok ([.titleSlide], st.used)
  | .bullets => .ok ([.bulletSlide (styleOfCount st.count)], st.used)
  | .two_column => .ok ([.twoColumnSlide], st.used)
  | .image_left =>
    match getImageForCategory brand.images st.used content.image_category with
    | (img, used') => .ok ([.imageLeftSlide img], used')
  | .image_right =>
    match getImageForCategory brand.images st.used content.image_category with
    | (img, used') => .ok ([.imageRightSlide img], used')
  | .section_divider => .ok ([.sectionDividerSlide], st.used)
  | .quote => .ok ([.quoteSlide], st.used)
  | .stats =>
    match parseStatsData content.stats content.bullets with
    | .error e => .error e
    | .ok stats_data =>
      match stats_data with
      | [] => .ok ([.statsHeaderSlide, .bulletSlide (styleOfCount st.count)], st.used)
      | _ :: _ => .ok ([.statsSlide (stats_data.take 4)], st.used)
  | .thank_you => .ok ([.thankYouSlide], st.used)

/-- The loop of `generate`: renders each `SlideContent` in order, threading
the used-image set and bumping `slide_count` once per content record; the
result keeps the deck slides of each content record as one group. -/
def genGo (brand : BrandProfile) : GenState → List SlideContent →
    Except Unit (List (List SlideRender))
  | _, [] => .ok []
  | st, c :: rest =>
    match renderSlide brand st c with
    | .error e => .error e
    | .ok (rs, used') =>
      match genGo brand { used := used', count := st.count + 1 } rest with
      | .error e => .error e
      | .ok t => .ok (rs :: t)

/-- Per-content render trace of one `generate(presentation, path)` call on a
fresh `PptxGenerator` (fresh used set, counter 0). -/
def genTrace (brand : BrandProfile) (p : Presentation) :
    Except Unit (List (List SlideRender)) :=
  genGo brand {} p.slides

/-- Concatenation of list groups (the deck is the per-content groups in
order). -/
def joinAll : List (List α) → List α
  | [] => []
  | l :: ls => l ++ joinAll ls

/-- The deck produced by `generate_pptx` / `PptxGenerator.generate`: all
deck slides in order. -/
def generateDeck (brand : BrandProfile) (p : Presentation) :
    Except Unit (List SlideRender) :=
  match genTrace brand p with
  | .error e => .error e
  | .ok t => .ok (joinAll t)
/-! ### Counters (`collections.Counter`) -/

/-- Add `n` to the count of key `k`, preserving first-insertion order. -/
def bumpCount (l : List (String × Nat)) (k : String) (n : Nat) : List (String × Nat) :=
  match l with
  | [] => [(k, n)]
  | (k', m) :: rest =>
    if k' = k then (k', m + n) :: rest else (k', m) :: bumpCount rest k n

/-- Python `Counter(observations)`: counts in first-occurrence order. -/
def countOcc (l : List String) : List (String × Nat) :=
  l.foldl (fun acc s => bumpCount acc s 1) []

/-- Stable insertion into a descending-by-count list: the inserted entry
goes before the first entry with a smaller-or-equal count seen from its
position, keeping earlier-inserted keys first among equal counts —
`Counter.most_common()` tie behavior. -/
def insertByCount (x : String × Nat) : List (String × Nat) → List (String × Nat)
  | [] => [x]
  | y :: ys => if x.2 ≥ y.2 then x :: y :: ys else y :: insertByCount x ys

/-- Python `Counter.most_common()`: stable sort, count descending. -/
def sortByCountDesc : List (String × Nat) → List (String × Nat)
  | [] => []
  | x :: xs => insertByCount x (sortByCountDesc xs)

/-! ### Color classification helpers of `_extract_shape_colors` (extractor.py 474-507) -/

/-- Embedding of the inner `is_neutral`: uppercase, strip hashes, reject
non-6-digit strings as neutral, then flag pure white/black and low
saturation very bright/very dark grays.  The `none` parse arm cannot be
reached by the colors the extraction pipeline builds (they are RGB-triple
renderings); in Python a non-hex 6-character string would raise
`ValueError` there. -/
def is_neutral (color : String) : Bool :=
  let c := (color.data.map Char.toUpper).dropWhile (fun x => x = '#')
  if c.length ≠ 6 then true
  else
    match parseHexStr (pySlice c 0 2), parseHexStr (pySlice c 2 4), parseHexStr (pySlice c 4 6) with
    | some r, some g, some b =>
      if (r = 255 && g = 255 && b = 255) || (r = 0 && g = 0 && b = 0) then true
      else
        let mx := max r (max g b)
        let mn := min r (min g b)
        decide (mx - mn < 20) && (decide (mx > 200) || decide (mn < 55))
    | _, _, _ => true

/-- Embedding of the inner `is_dark`: luminance below one half (float
constants modelled by their decimal rationals). -/
def is_dark (color : String) : Bool :=
  let c := (color.data.map Char.toUpper).dropWhile (fun x => x = '#')
  if c.length ≠ 6 then false
  else
    match parseHexStr (pySlice c 0 2), parseHexStr (pySlice c 2 4), parseHexStr (pySlice c 4 6) with
    | some r, some g, some b =>
      decide ((299 * (r : ℚ) + 587 * (g : ℚ) + 114 * (b : ℚ)) / 1000 / 255 < 1/2)
    | _, _, _ => false

/-- Embedding of the inner `is_light`: luminance above 0.7. -/
def is_light (color : String) : Bool :=
  let c := (color.data.map Char.toUpper).dropWhile (fun x => x = '#')
  if c.length ≠ 6 then false
  else
    match parseHexStr (pySlice c 0 2), parseHexStr (pySlice c 2 4), parseHexStr (pySlice c 4 6) with
    | some r, some g, some b =>
      decide ((299 * (r : ℚ) + 587 * (g : ℚ) + 114 * (b : ℚ)) / 1000 / 255 > 7/10)
    | _, _, _ => false

/-! ### Palette-role assignment (tail of `_extract_shape_colors`, extractor.py 508-551) -/

/-- The `sorted_colors` of `_extract_shape_colors`: the merged counter
(`fill_colors + text_colors + bg_colors`), most common first. -/
def paletteSorted (fills texts bgs : List String) : List String :=
  (sortByCountDesc (countOcc (fills ++ texts ++ bgs))).map (fun x => x.1)

/-- The `accent_colors` of `_extract_shape_colors`: the ranked colors with the
neutrals filtered out. -/
def paletteAccent (fills texts bgs : List String) : List String :=
  (paletteSorted fills texts bgs).filter (fun c => !is_neutral c)

/-- Build the `ExtractedColorPalette` from the three observation streams
(each element one counted occurrence, in observation order). -/
def buildPalette (fills texts bgs : List String) : ExtractedColorPalette :=
  let text_sorted := (sortByCountDesc (countOcc texts)).map (fun x => x.1)
  let text_color :=
    match text_sorted.find? is_dark with
    | some c => some c
    | none => text_sorted.head?
  let bg_sorted := (sortByCountDesc (countOcc bgs)).map (fun x => x.1)
  let background :=
    match bg_sorted.find? is_light with
    | some c => some c
    | none => (paletteSorted fills texts bgs).find? is_light
  { primary := (paletteAccent fills texts bgs).get? 0
    secondary := (paletteAccent fills texts bgs).get? 1
    accent := (paletteAccent fills texts bgs).get? 2
    background := background
    text := text_color
    all_colors := (paletteSorted fills texts bgs).take 20 }

/-! ### Color observation streams of `_extract_shape_colors` (extractor.py 387-471) -/

/-- Fill-counter observations of one shape: solid RGB fill first, then the
solid RGB line color (both upper-case hex behind a hash). -/
def shapeFillObs (s : ShapeXml) : List String :=
  (match s.solidFillRGB with
   | some c => [rgbObs c]
   | none => []) ++
  (match s.lineSolidRGB with
   | some c => [rgbObs c]
   | none => [])

/-- Text-counter observations of one shape: the RGB font colors of its runs
in order. -/
def shapeTextObs (s : ShapeXml) : List String :=
  s.paragraphs.foldr (fun p acc =>
    p.runs.foldr (fun r acc' =>
      match r.colorRGB with
      | some c => rgbObs c :: acc'
      | none => acc') [] ++ acc) []

/-- Background observation of one container: only a solid RGB fill counts. -/
def bgSolidObs : Option RawFill → List String
  | some (.solidFill (some c)) => [rgbObs c]
  | _ => []

/-- All fill-counter observations: master shapes, then layout shapes, then
slide shapes (the source walk order). -/
def collectFillObs (pkg : PptxPackage) : List String :=
  (pkg.master.shapes.foldr (fun s acc => shapeFillObs s ++ acc) []) ++
  (pkg.layouts.foldr (fun l acc =>
    l.shapes.foldr (fun s acc' => shapeFillObs s ++ acc') [] ++ acc) []) ++
  (pkg.slides.foldr (fun sl acc =>
    sl.shapes.foldr (fun s acc' => shapeFillObs s ++ acc') [] ++ acc) [])

/-- All text-counter observations in walk order. -/
def collectTextObs (pkg : PptxPackage) : List String :=
  (pkg.master.shapes.foldr (fun s acc => shapeTextObs s ++ acc) []) ++
  (pkg.layouts.foldr (fun l acc =>
    l.shapes.foldr (fun s acc' => shapeTextObs s ++ acc') [] ++ acc) []) ++
  (pkg.slides.foldr (fun sl acc =>
    sl.shapes.foldr (fun s acc' => shapeTextObs s ++ acc') [] ++ acc) [])

/-- All background-counter observations in walk order. -/
def collectBgObs (pkg : PptxPackage) : List String :=
  bgSolidObs pkg.master.background ++
  (pkg.layouts.foldr (fun l acc => bgSolidObs l.background ++ acc) []) ++
  (pkg.slides.foldr (fun sl acc => bgSolidObs sl.background ++ acc) [])

/-- Embedding of `_extract_shape_colors`. -/
def extract_shape_colors (pkg : PptxPackage) : ExtractedColorPalette :=
  buildPalette (collectFillObs pkg) (collectTextObs pkg) (collectBgObs pkg)

/-! ### Theme colors and fonts (`_extract_theme_colors`, `_extract_theme_fonts`) -/

/-- One `clrScheme` slot lookup: first matching element, `srgbClr/@val`
preferred over `sysClr/@lastClr`, hash-prefixed. -/
def lookupThemeColor (t : ThemeXml) (name : String) : Option String :=
  match t.clrScheme.find? (fun e => decide (e.1 = name)) with
  | none => none
  | some (_, srgb, sys) =>
    match srgb with
    | some v => some ("#" ++ v)
    | none =>
      match sys with
      | some v => some ("#" ++ v)
      | none => none

/-- Embedding of `_extract_theme_colors`: every slot that cannot be read
keeps the `ThemeColors` model default. -/
def extract_theme_colors (theme : Option ThemeXml) : ThemeColors :=
  match theme with
  | none => {}
  | some t =>
    { dk1 := (lookupThemeColor t "dk1").getD "#000000"
      lt1 := (lookupThemeColor t "lt1").getD "#FFFFFF"
      dk2 := (lookupThemeColor t "dk2").getD "#1F497D"
      lt2 := (lookupThemeColor t "lt2").getD "#EEECE1"
      accent1 := (lookupThemeColor t "accent1").getD "#4F81BD"
      accent2 := (lookupThemeColor t "accent2").getD "#C0504D"
      accent3 := (lookupThemeColor t "accent3").getD "#9BBB59"
      accent4 := (lookupThemeColor t "accent4").getD "#8064A2"
      accent5 := (lookupThemeColor t "accent5").getD "#4BACC6"
      accent6 := (lookupThemeColor t "accent6").getD "#F79646"
      hlink := (lookupThemeColor t "hlink").getD "#0000FF"
      folHlink := (lookupThemeColor t "folHlink").getD "#800080" }

/-- Font observations of one shape (`_collect_fonts_from_shape`):
paragraph font name when truthy, then the truthy run font names. -/
def shapeFontObs (s : ShapeXml) : List String :=
  s.paragraphs.foldr (fun p acc =>
    (match p.fontName with
     | some n => if n = "" then [] else [n]
     | none => []) ++
    p.runs.foldr (fun r acc' =>
      match r.fontName with
      | some n => if n = "" then acc' else n :: acc'
      | none => acc') [] ++ acc) []

/-- Walk order of `_extract_fonts_from_shapes`: slides, then master, then
layouts. -/
def fontObservations (pkg : PptxPackage) : List String :=
  (pkg.slides.foldr (fun sl acc =>
    sl.shapes.foldr (fun s acc' => shapeFontObs s ++ acc') [] ++ acc) []) ++
  (pkg.master.shapes.foldr (fun s acc => shapeFontObs s ++ acc) []) ++
  (pkg.layouts.foldr (fun l acc =>
    l.shapes.foldr (fun s acc' => shapeFontObs s ++ acc') [] ++ acc) [])

/-- The family-counter loop of `_extract_fonts_from_shapes` (extractor.py
166-171): for each counted font, `base = font.split()[0] if font else ""`,
then `if base: font_families[base] += count`.  `font.split()[0]` raises an
uncaught `IndexError` when a truthy font name is whitespace only — the
loop sits outside every try/except, so the error propagates out of
`extract`; the `.error` arm models exactly that. -/
def familyCountsGo : List (String × Nat) → List (String × Nat) →
    Except String (List (String × Nat))
  | [], acc => .ok acc
  | fc :: rest, acc =>
    if fc.1 = "" then familyCountsGo rest acc
    else
      match pySplitHead fc.1 with
      | none => .error "IndexError"
      | some base =>
        if base = "" then familyCountsGo rest acc
        else familyCountsGo rest (bumpCount acc base fc.2)

/-- The heading/body variant pass of `_extract_fonts_from_shapes`: walk the
font counter in insertion order; a variant of the most common base family
containing `Medium`/`Bold` becomes the heading candidate, one containing
`Light`/`Regular` the body candidate (later hits overwrite earlier ones). -/
def variantPass (fonts : List (String × Nat)) (base : String) : String × String :=
  fonts.foldl (fun hb fc =>
    if pyStartsWith fc.1 base then
      if containsSub "Medium".data fc.1.data || containsSub "Bold".data fc.1.data then
        (fc.1, hb.2)
      else if containsSub "Light".data fc.1.data || containsSub "Regular".data fc.1.data then
        (hb.1, fc.1)
      else hb
    else hb) (base, base)

/-- The most common font overall, `fonts.most_common(1)[0][0]` (the
counter is nonempty whenever this is read; `dflt` covers the impossible
empty case). -/
def mostCommonKey (fonts : List (String × Nat)) (dflt : String) : String :=
  ((sortByCountDesc fonts).head?.map (fun x => x.1)).getD dflt

/-- Heading and body font once the most common base family is fixed
(extractor.py 175-193): the variant pass, then — for a slot the pass left
at the bare base name — the most common font overall. -/
def fontsFromBase (fonts : List (String × Nat)) (base : String) : String × String :=
  ((if (variantPass fonts base).1 = base then mostCommonKey fonts base
    else (variantPass fonts base).1),
   (if (variantPass fonts base).2 = base then mostCommonKey fonts base
    else (variantPass fonts base).2))

/-- Embedding of `_extract_fonts_from_shapes`: `.ok none` models the empty
dict (no font observation, or no nonempty base family); `.error` the
uncaught `IndexError` of the family-counter loop. -/
def extract_fonts_from_shapes (pkg : PptxPackage) : Except String (Option (String × String)) :=
  match fontObservations pkg with
  | [] => .ok none
  | o :: os =>
    match familyCountsGo (countOcc (o :: os)) [] with
    | .error e => .error e
    | .ok families =>
      match (sortByCountDesc families).head? with
      | none => .ok none
      | some bp => .ok (some (fontsFromBase (countOcc (o :: os)) bp.1))

/-- Embedding of `_extract_theme_fonts`: shape fonts win; otherwise the
theme's latin typefaces with `Calibri` defaults.  The `IndexError` of the
shape-font pass propagates. -/
def extract_theme_fonts (pkg : PptxPackage) : Except String ThemeFonts :=
  match extract_fonts_from_shapes pkg with
  | .error e => .error e
  | .ok (some hb) => .ok { major_latin := hb.1, minor_latin := hb.2 }
  | .ok none =>
    .ok { major_latin := (pkg.theme.bind (fun t => t.majorLatin)).getD "Calibri"
          minor_latin := (pkg.theme.bind (fun t => t.minorLatin)).getD "Calibri" }

/-! ### Fill styles, layouts, media (`_extract_fill_style`, `_extract_layouts`, `_extract_background_images`) -/

/-- Embedding of `_extract_fill_style`.  The enum-to-string normalization
of the source is modelled by the lowercase type names `"solid"` and
`"gradient"`; gradient stop colors keep only readable RGB stops and the
angle falls back to 0, as in the source's guarded reads. -/
def extract_fill_style : RawFill → BackgroundStyle
  | .solidFill rgb =>
    { fill_type := "solid", solid_color := rgb.map (fun c => rgbObs c) }
  | .gradientFill stops angle =>
    { fill_type := "gradient"
      gradient_colors := stops.foldr (fun st acc =>
        match st with
        | some c => rgbObs c :: acc
        | none => acc) []
      gradient_angle := angle.getD 0 }
  | .otherFill typeName => { fill_type := typeName }

/-- Embedding of `_extract_master_background`. -/
def extract_master_background (pkg : PptxPackage) : Option BackgroundStyle :=
  pkg.master.background.map extract_fill_style

/-- Embedding of the per-placeholder read of `_extract_layouts`: geometry
defaults to 0 where absent, font info comes from the first paragraph
(name and size only when truthy, bold whenever not `None`). -/
def extract_placeholder (ph : PlaceholderXml) : PlaceholderInfo :=
  { idx := ph.idx
    phType := ph.phType
    left := ph.left.getD 0
    top := ph.top.getD 0
    width := ph.width.getD 0
    height := ph.height.getD 0
    font_name :=
      match ph.paragraphs.head? with
      | some p =>
        (match p.fontName with
         | some n => if n = "" then none else some n
         | none => none)
      | none => none
    font_size :=
      match ph.paragraphs.head? with
      | some p =>
        (match p.fontSize with
         | some sz => if sz = 0 then none else some sz
         | none => none)
      | none => none
    font_bold :=
      match ph.paragraphs.head? with
      | some p => p.fontBold
      | none => none }

/-- Embedding of `_extract_layouts`. -/
def extract_layouts (pkg : PptxPackage) : List ExtractedLayout :=
  pkg.layouts.enum.map (fun il =>
    { name := il.2.layoutName
      idx := il.1
      placeholders := il.2.placeholders.map extract_placeholder
      background := il.2.background.map extract_fill_style })

/-- Base name of an archive entry (`Path(name).name`). -/
def baseName (n : String) : String :=
  ⟨(n.data.reverse.takeWhile (fun c => !(c = '/'))).reverse⟩

/-- The raster-extension test `name.lower().endswith((".png", ".jpg", ".jpeg", ".gif"))`. -/
def rasterExt (n : String) : Bool :=
  pyEndsWith n ".png" || pyEndsWith n ".jpg" || pyEndsWith n ".jpeg" || pyEndsWith n ".gif"

/-- Embedding of `_extract_background_images`: every `ppt/media/` raster
entry is written to the output directory under `template_<name>` and the
written paths are returned in listing order. -/
def extract_background_images (outputDir : String) (media : List String) : List String :=
  (media.filter (fun n => pyStartsWith n "ppt/media/" && rasterExt (pyLower n))).map
    (fun n => outputDir ++ "/template_" ++ baseName n)

/-! ### `PptxTemplateExtractor.extract` and its boundary -/

/-- Embedding of `PptxTemplateExtractor.extract` on a parsed package.
The source computes theme colors, then theme fonts, then the guarded
remainder; the only sub-step that can raise is the theme-font pass, and
its error aborts the whole `extract` call exactly as here. -/
def extractorExtract (pkg : PptxPackage) (filename outputDir : String) :
    Except String TemplateProfile :=
  match extract_theme_fonts pkg with
  | .error e => .error e
  | .ok tf =>
    .ok { source_file := filename
          theme_colors := extract_theme_colors pkg.theme
          theme_fonts := tf
          master_background := extract_master_background pkg
          layouts := extract_layouts pkg
          extracted_images := extract_background_images outputDir pkg.mediaFiles
          extracted_palette := extract_shape_colors pkg
          template_bytes := some (.parsed pkg) }

/-- Embedding of `extract_template_styles` (constructor plus `extract`):
`PptxTemplateExtractor.__init__` parses the bytes with
`Presentation(io.BytesIO(file_content))` unguarded, so bytes that do not
parse as a package raise there and no profile is produced. -/
def extract_template_styles (b : TemplateBytes) (filename outputDir : String) :
    Except String TemplateProfile :=
  match b with
  | .malformed => .error "PackageNotFoundError"
  | .parsed pkg => extractorExtract pkg filename outputDir

/-! ### Brand profile merge (routes.py 85-98)

`api/routes.py` calls `analyzer.merge_with_template(brand_profile,
template_profile)` when both a scraped brand profile and a template profile
exist, but `BrandAnalyzer` (brand/analyzer.py) does not define that method
anywhere under `src/`; only this call site exists.  The definitions below
therefore model the missing merge from the spec. -/

/-- Modelled from the spec: the brand colors a template profile induces —
`merge_with_template` and `create_profile_from_template` are missing from
`src/` (only their call sites in `api/routes.py` exist).  Per spec §4.3 a
profile is synthesized "directly from its extracted palette", each role
falling back to the model default when the palette lacks it. -/
def colorsFromTemplate (t : TemplateProfile) : BrandColors :=
  { primary := t.extracted_palette.primary.getD "#1a365d"
    secondary := t.extracted_palette.secondary.getD "#2d3748"
    accent := t.extracted_palette.accent.getD "#3182ce"
    background := t.extracted_palette.background.getD "#ffffff"
    text := t.extracted_palette.text.getD "#1a202c"
    text_light := "#718096" }

/-- Modelled from the spec: the brand fonts a template profile induces
(heading from the major latin face, body from the minor one). -/
def fontsFromTemplate (t : TemplateProfile) : BrandFonts :=
  { heading := t.theme_fonts.major_latin
    body := t.theme_fonts.minor_latin
    heading_fallback := "Helvetica"
    body_fallback := "Helvetica" }

/-- Modelled from the spec: `BrandAnalyzer.merge_with_template` (missing
from `src/`).  Per spec §4.3, when both profiles exist the template's
colors and fonts take precedence over the scraped ones; everything else of
the scraped profile is kept, and the template profile is attached. -/
def merge_with_template (brand : BrandProfile) (tmpl : TemplateProfile) : BrandProfile :=
  { brand with
      colors := colorsFromTemplate tmpl
      fonts := fontsFromTemplate tmpl
      template_profile := some tmpl }
/-! ### Concrete instances used by the closed evaluations -/

/-- A fully defaulted brand profile. -/
def brand0 : BrandProfile := {}

/-- A stats-layout slide whose only bullet parses to no stat. -/
def statsFallbackContent : SlideContent :=
  { layout := .stats, title := "Key Results", bullets := ["Improve morale"] }

/-- A one-slide presentation around `statsFallbackContent`. -/
def statsFallbackPres : Presentation :=
  { title := "Deck", slides := [statsFallbackContent] }

/-- A plain bullets-layout slide. -/
def bulletContent : SlideContent := { layout := .bullets, title := "Points" }

/-- Two consecutive bullets-layout slides. -/
def bulletPres : Presentation := { title := "Deck", slides := [bulletContent, bulletContent] }

/-- A stats-layout slide whose first bullet is the empty string. -/
def emptyBulletStatsContent : SlideContent := { layout := .stats, bullets := [""] }

/-- One user-uploaded raster image. -/
def uploadImg : ScrapedImage := { local_path := some "u.png", category := .user_upload }

/-- First product raster image. -/
def prodImg1 : ScrapedImage := { local_path := some "p1.png", category := .product }

/-- Second product raster image. -/
def prodImg2 : ScrapedImage := { local_path := some "p2.png", category := .product }

/-- The three-image pool of the selector scenario. -/
def poolImgs : List ScrapedImage := [uploadImg, prodImg1, prodImg2]

/-- A parsed package whose one shape carries the truthy whitespace-only
font name `" "`: the family-counter loop of `_extract_fonts_from_shapes`
raises `IndexError` at `font.split()[0]` on it. -/
def spaceFontPkg : PptxPackage :=
  { slides := [{ shapes := [{ paragraphs := [{ fontName := some " " }] }] }] }
set_option maxRecDepth 4000 in
theorem pyHex2_spec :
    ∀ v : Fin 256,
      (pyHex2 v.val).length = 2 ∧ parseHexStr (pyHex2 v.val) = some v.val ∧
        ¬ '#' ∈ pyHex2 v.val := by
  decide

theorem pyInt_natCast (n : ℕ) : pyInt (n : ℚ) = n := by
  unfold pyInt
  simp [Rat.num_natCast, Rat.den_natCast, Int.tdiv_one]

theorem color_fmt_eval (r g b : Fin 256) (f : ℚ) :
    lighten_color (fmtHexColor r g b) f =
      some ⟨'#' :: (pyHex2 (pyInt ((r.val : ℚ) + (255 - (r.val : ℚ)) * f)).toNat ++
        pyHex2 (pyInt ((g.val : ℚ) + (255 - (g.val : ℚ)) * f)).toNat ++
        pyHex2 (pyInt ((b.val : ℚ) + (255 - (b.val : ℚ)) * f)).toNat)⟩ ∧
    darken_color (fmtHexColor r g b) f =
      some ⟨'#' :: (pyHex2 (pyInt ((r.val : ℚ) * (1 - f))).toNat ++
        pyHex2 (pyInt ((g.val : ℚ) * (1 - f))).toNat ++
        pyHex2 (pyInt ((b.val : ℚ) * (1 - f))).toNat)⟩ := by
  obtain ⟨hlr, hpr, hmr⟩ := pyHex2_spec r
  obtain ⟨hlg, hpg, hmg⟩ := pyHex2_spec g
  obtain ⟨hlb, hpb, hmb⟩ := pyHex2_spec b
  obtain ⟨r1, r2, hr⟩ := List.length_eq_two.mp hlr
  obtain ⟨g1, g2, hg⟩ := List.length_eq_two.mp hlg
  obtain ⟨b1, b2, hb⟩ := List.length_eq_two.mp hlb
  have hdata : (fmtHexColor r g b).data =
      '#' :: ([r1, r2] ++ ([g1, g2] ++ [b1, b2])) := by
    show '#' :: (pyHex2 r.val ++ pyHex2 g.val ++ pyHex2 b.val) =
      '#' :: ([r1, r2] ++ ([g1, g2] ++ [b1, b2]))
    rw [hr, hg, hb]
    simp
  have hr1 : r1 ≠ '#' := by
    intro h
    exact hmr (by rw [hr, h]; simp)
  have hdrop : dropHash (fmtHexColor r g b).data = [r1, r2, g1, g2, b1, b2] := by
    rw [hdata]
    simp [dropHash, List.dropWhile, hr1]
  have hs1 : pySlice [r1, r2, g1, g2, b1, b2] 0 2 = [r1, r2] := by rfl
  have hs2 : pySlice [r1, r2, g1, g2, b1, b2] 2 4 = [g1, g2] := by rfl
  have hs3 : pySlice [r1, r2, g1, g2, b1, b2] 4 6 = [b1, b2] := by rfl
  have hpr' : parseHexStr [r1, r2] = some r.val := by rw [← hr]; exact hpr
  have hpg' : parseHexStr [g1, g2] = some g.val := by rw [← hg]; exact hpg
  have hpb' : parseHexStr [b1, b2] = some b.val := by rw [← hb]; exact hpb
  constructor
  · unfold lighten_color
    rw [hdrop, hs1, hs2, hs3, hpr', hpg', hpb']
  · unfold darken_color
    rw [hdrop, hs1, hs2, hs3, hpr', hpg', hpb']


theorem pyIntLightZero (x : ℕ) : (pyInt ((x : ℚ) + (255 - (x : ℚ)) * 0)).toNat = x := by
  have h : ((x : ℚ) + (255 - (x : ℚ)) * 0) = (x : ℚ) := by ring
  rw [h, pyInt_natCast]
  exact Int.toNat_natCast x

theorem pyIntDarkZero (x : ℕ) : (pyInt ((x : ℚ) * (1 - 0))).toNat = x := by
  have h : ((x : ℚ) * (1 - 0)) = (x : ℚ) := by ring
  rw [h, pyInt_natCast]
  exact Int.toNat_natCast x

theorem pyIntLightOne (x : ℕ) : (pyInt ((x : ℚ) + (255 - (x : ℚ)) * 1)).toNat = 255 := by
  have h : ((x : ℚ) + (255 - (x : ℚ)) * 1) = ((255 : ℕ) : ℚ) := by
    push_cast
    ring
  rw [h, pyInt_natCast]
  rfl

theorem pyIntDarkOne (x : ℕ) : (pyInt ((x : ℚ) * (1 - 1))).toNat = 0 := by
  have h : ((x : ℚ) * (1 - 1)) = ((0 : ℕ) : ℚ) := by
    push_cast
    ring
  rw [h, pyInt_natCast]
  rfl

theorem lighten_color_zero_eval (s : String) (r g b : Nat)
    (h1 : parseHexStr (pySlice (dropHash s.data) 0 2) = some r)
    (h2 : parseHexStr (pySlice (dropHash s.data) 2 4) = some g)
    (h3 : parseHexStr (pySlice (dropHash s.data) 4 6) = some b) :
    lighten_color s 0 = some ⟨'#' :: (pyHex2 r ++ pyHex2 g ++ pyHex2 b)⟩ := by
  unfold lighten_color
  rw [h1, h2, h3]
  show some (⟨'#' :: (pyHex2 (pyInt ((r : ℚ) + (255 - (r : ℚ)) * 0)).toNat ++
    pyHex2 (pyInt ((g : ℚ) + (255 - (g : ℚ)) * 0)).toNat ++
    pyHex2 (pyInt ((b : ℚ) + (255 - (b : ℚ)) * 0)).toNat)⟩ : String) =
    some (⟨'#' :: (pyHex2 r ++ pyHex2 g ++ pyHex2 b)⟩ : String)
  rw [pyIntLightZero r, pyIntLightZero g, pyIntLightZero b]

/-- C7 counterexample: `lighten_color` reformats its result in lowercase hex,
so on the valid 6-digit hex color `"#4F81BD"` (the theme default `accent1`)
the factor-0 call is not the identity the claim states: it returns
`"#4f81bd"`, a different string. -/
theorem c7_counterexample_uppercase :
    lighten_color "#4F81BD" 0 = some "#4f81bd" ∧
    lighten_color "#4F81BD" 0 ≠ some "#4F81BD" := by
  have h := lighten_color_zero_eval "#4F81BD" 79 129 189 (by decide) (by decide) (by decide)
  rw [h]
  constructor
  · decide
  · decide

/-- C7 (amended): for every 6-digit hex color in canonical lowercase
`#rrggbb` form, `lighten_color` and `darken_color` are the identity at
factor 0, and saturate to `"#ffffff"` and `"#000000"` respectively at
factor 1 (for non-lowercase valid inputs the factor-0 result is the same
color value reformatted in lowercase). -/
theorem c7_color_identities :
    ∀ r g b : Fin 256,
      lighten_color (fmtHexColor r g b) 0 = some (fmtHexColor r g b) ∧
      darken_color (fmtHexColor r g b) 0 = some (fmtHexColor r g b) ∧
      lighten_color (fmtHexColor r g b) 1 = some "#ffffff" ∧
      darken_color (fmtHexColor r g b) 1 = some "#000000" := by
  intro r g b
  obtain ⟨hl0, hd0⟩ := color_fmt_eval r g b 0
  obtain ⟨hl1, hd1⟩ := color_fmt_eval r g b 1
  rw [hl0, hd0, hl1, hd1, pyIntLightZero r.val, pyIntLightZero g.val,
    pyIntLightZero b.val, pyIntDarkZero r.val, pyIntDarkZero g.val,
    pyIntDarkZero b.val, pyIntLightOne r.val, pyIntLightOne g.val,
    pyIntLightOne b.val, pyIntDarkOne r.val, pyIntDarkOne g.val,
    pyIntDarkOne b.val]
  exact ⟨rfl, rfl, rfl, rfl⟩

/-! ### Theorems: stat parsing (C4) -/

theorem mem_of_dropWhile {p : Char → Bool} {l : List Char} {x : Char}
    (h : x ∈ l.dropWhile p) : x ∈ l :=
  (List.dropWhile_sublist p).subset h

theorem mem_of_statRegexTail {s : List Char} {x : Char}
    (h : x ∈ statRegexTail s) : x ∈ s :=
  mem_of_dropWhile (mem_of_dropWhile (mem_of_dropWhile h))

theorem data_ne_nil_of_ne_empty {s : String} (h : s ≠ "") : s.data ≠ [] := by
  intro hd
  apply h
  cases s
  simp_all

theorem parseStatBullet_eq_spec (b : String) (hb : b ≠ "") (hnl : '\x0a' ∉ b.data) :
    parseStatBullet b = .ok (specStatParse b) := by
  obtain ⟨c, cs, hd⟩ : ∃ c cs, b.data = c :: cs := by
    cases hdd : b.data with
    | nil => exact absurd hdd (data_ne_nil_of_ne_empty hb)
    | cons c cs => exact ⟨c, cs, rfl⟩
  unfold parseStatBullet specStatParse
  rw [hd]
  cases h : splitFirst sepDash (c :: cs) with
  | some pr => rfl
  | none =>
    dsimp only
    by_cases hcl : (c.isDigit || c = '$' || c = '%') = true
    · rw [if_pos hcl, if_pos hcl]
      have hcls : pyStatClass c = true := by
        simp only [pyStatClass, Bool.or_eq_true] at hcl ⊢
        tauto
      have hnl' : '\x0a' ∉ c :: cs := by rw [← hd]; exact hnl
      have hcore : statRegexCore (c :: cs) = statRegexTail (c :: cs) := by
        unfold statRegexCore
        rw [if_neg]
        intro hlast
        exact hnl' (mem_of_statRegexTail (List.mem_of_mem_getLast? hlast))
      have hne : ((c :: cs).takeWhile pyStatClass).isEmpty = false := by
        simp [List.takeWhile_cons, hcls]
      have hmemf : decide ('\x0a' ∈ statRegexCore (c :: cs)) = false := by
        rw [hcore]
        exact decide_eq_false (fun hm => hnl' (mem_of_statRegexTail hm))
      unfold statRegex
      rw [hne, hmemf, hcore]
      simp [statRegexTail]
    · rw [if_neg hcl, if_neg hcl]

/-- C4 counterexample: the bullet `"1 a\nb"` starts with a digit, so by the
claim its leading numeric token `"1"` should become a stat value with
`"a\nb"` as label (which is what the spec rule produces); but the source
regex cannot match across the embedded newline, so `_add_stats_slide`
silently drops the bullet and parses no stat from it. -/
theorem c4_counterexample_newline_bullet :
    parseStatsData [] ["1 a\x0ab"] = .ok [] ∧
    specStatParse "1 a\x0ab" = some { value := "1", label := "a\x0ab" } := by
  constructor
  · rfl
  · rfl

/-- C4 (amended): on every nonempty bullet without an embedded newline the
source parses exactly as the claim states — `" - "` split into stripped
value/label first, else leading numeric-like token plus remainder when the
first character is a digit, `$` or `%`, else the bullet is dropped (the
reference rule `specStatParse` written from the spec); bullets whose
remainder spans a newline are additionally dropped by the regex.  The
claim's three examples evaluate through the full stats-data path. -/
theorem c4_stat_parsing :
    (∀ b : String, b ≠ "" → '\x0a' ∉ b.data → parseStatBullet b = .ok (specStatParse b)) ∧
    parseStatsData [] ["73% - Revenue Growth", "$2.5M Cost Savings", "Improve morale"] =
      .ok [{ value := "73%", label := "Revenue Growth" }, { value := "$2.5M", label := "Cost Savings" }] := by
  constructor
  · exact parseStatBullet_eq_spec
  · rfl

/-- C4 witness: the amended theorem applied to the `"$2.5M Cost Savings"`
example. -/
theorem c4_stat_parsing_witness :
    parseStatBullet "$2.5M Cost Savings" = .ok (specStatParse "$2.5M Cost Savings") :=
  c4_stat_parsing.1 "$2.5M Cost Savings" (by decide) (by decide)

/-! ### Theorems: the empty-bullet crash (C10) -/

theorem parseStatBullet_empty : parseStatBullet "" = .error () := rfl

theorem parseBulletsAsStats_error {l : List String} (h : "" ∈ l) :
    parseBulletsAsStats l = .error () := by
  induction l with
  | nil => simp at h
  | cons b rest ih =>
    rcases List.mem_cons.mp h with hb | hr
    · rw [← hb]
      rfl
    · unfold parseBulletsAsStats
      cases hp : parseStatBullet b with
      | error e => cases e; rfl
      | ok x =>
        cases x with
        | none => exact ih hr
        | some s => rw [ih hr]

/-- C10: a stats-layout slide with no explicit stats and an empty string
among its first four bullets makes the renderer raise the `IndexError`
of `bullet[0]` instead of dropping the bullet: the render of that slide
is an error for every brand profile and every renderer state. -/
theorem c10_empty_bullet_crash (brand : BrandProfile) (st : GenState) (c : SlideContent)
    (hl : c.layout = .stats) (hs : c.stats = []) (hb : "" ∈ c.bullets.take 4) :
    renderSlide brand st c = .error () := by
  have hbn : c.bullets ≠ [] := by
    intro h0
    rw [h0] at hb
    simp at hb
  have hpd : parseStatsData c.stats c.bullets = .error () := by
    rw [hs]
    cases hbl : c.bullets with
    | nil => exact absurd hbl hbn
    | cons x xs =>
      show parseBulletsAsStats ((x :: xs).take 4) = .error ()
      exact parseBulletsAsStats_error (hbl ▸ hb)
  unfold renderSlide
  rw [hl]
  dsimp only
  rw [hpd]

/-- C10 witness: the theorem evaluated on the concrete slide whose bullet
list is `[""]`. -/
theorem c10_empty_bullet_crash_witness :
    renderSlide brand0 {} emptyBulletStatsContent = .error () :=
  c10_empty_bullet_crash brand0 {} emptyBulletStatsContent rfl rfl (by decide)

/-! ### Theorems: deck size on stats fallback (C1) and bullet alternation (C9) -/

/-- C1 (code bug): on a presentation with one stats-layout slide whose
stats are empty and whose bullets parse to no stat, the deck receives two
slides — the partially built stats slide left behind by
`_add_stats_slide` (background, accent bar and title only) and the bullet
slide the fallback adds — although the input slide list has length one.
The claim's "exactly `len(slides)` slides including the fallback case"
fails on this input. -/
theorem c1_fallback_adds_extra_slide :
    generateDeck brand0 statsFallbackPres =
      .ok [SlideRender.statsHeaderSlide, SlideRender.bulletSlide BulletStyle.gradientCorner] ∧
    statsFallbackPres.slides.length = 1 := by
  constructor
  · rfl
  · rfl

theorem genGo_bullets (brand : BrandProfile) :
    ∀ (slides : List SlideContent) (st : GenState) (trace : List (List SlideRender)),
      genGo brand st slides = .ok trace →
      ∀ (j : Nat) (c : SlideContent), slides.get? j = some c → c.layout = .bullets →
        trace.get? j = some [SlideRender.bulletSlide (styleOfCount (st.count + j))] := by
  intro slides
  induction slides with
  | nil =>
    intro st trace _ j c hj _
    simp at hj
  | cons c0 rest ih =>
    intro st trace h j c hj hb
    unfold genGo at h
    cases hr : renderSlide brand st c0 with
    | error e =>
      rw [hr] at h
      exact absurd h (by simp)
    | ok p =>
      obtain ⟨rs, used'⟩ := p
      rw [hr] at h
      dsimp only at h
      cases hg : genGo brand { used := used', count := st.count + 1 } rest with
      | error e =>
        rw [hg] at h
        exact absurd h (by simp)
      | ok t =>
        rw [hg] at h
        have htr : rs :: t = trace := by
          injection h
        cases j with
        | zero =>
          have hc : c0 = c := by
            simp only [List.get?] at hj
            injection hj
          rw [hc] at hr
          unfold renderSlide at hr
          rw [hb] at hr
          have hrs : rs = [SlideRender.bulletSlide (styleOfCount st.count)] := by
            have := hr
            dsimp only at this
            injection this with h1
            injection h1 with h2 _
            exact h2.symm
          rw [← htr, hrs]
          rfl
        | succ j' =>
          have hj' : rest.get? j' = some c := hj
          have := ih { used := used', count := st.count + 1 } t hg j' c hj' hb
          have harith : st.count + 1 + j' = st.count + (j' + 1) := by omega
          rw [← htr]
          show t.get? j' = some [SlideRender.bulletSlide (styleOfCount (st.count + (j' + 1)))]
          rw [← harith]
          exact this

/-- C9: within one `generate` call, every bullets-layout slide at input
index `j` (0-based, the renderer's `slide_count` at the moment it is
composed) is rendered with the light-gradient-plus-corner-accent treatment
when `j` is even and the solid-left-accent-bar treatment when `j` is odd. -/
theorem c9_bullet_alternation (brand : BrandProfile) (p : Presentation)
    (trace : List (List SlideRender)) (j : Nat) (c : SlideContent)
    (h : genTrace brand p = .ok trace) (hj : p.slides.get? j = some c)
    (hb : c.layout = .bullets) :
    trace.get? j = some [SlideRender.bulletSlide
      (if j % 2 = 0 then BulletStyle.gradientCorner else BulletStyle.leftAccentBar)] := by
  have := genGo_bullets brand p.slides {} trace h j c hj hb
  simpa [styleOfCount] using this

/-- C9 witness: the theorem applied to two consecutive bullets slides,
read at index 1 (odd: the solid-left-accent-bar treatment). -/
theorem c9_bullet_alternation_witness :
    ([[SlideRender.bulletSlide BulletStyle.gradientCorner],
      [SlideRender.bulletSlide BulletStyle.leftAccentBar]] : List (List SlideRender)).get? 1 =
      some [SlideRender.bulletSlide
        (if 1 % 2 = 0 then BulletStyle.gradientCorner else BulletStyle.leftAccentBar)] :=
  c9_bullet_alternation brand0 bulletPres _ 1 bulletContent rfl rfl rfl

/-! ### Theorems: image selection (C5, C6) -/

theorem usable_of_reusable {img : ScrapedImage} {used : List String}
    (h : reusableImg img = true) (hnm : pathOf img ∉ used) :
    usableImg used img = true := by
  unfold reusableImg at h
  simp only [Bool.and_eq_true] at h
  obtain ⟨h1, h2⟩ := h
  unfold usableImg
  simp [h1, h2, hnm]

theorem usable_false_of_mem {img : ScrapedImage} {used : List String}
    (hm : pathOf img ∈ used) : usableImg used img = false := by
  unfold usableImg
  simp [hm]

theorem reusable_of_usable {used : List String} {img : ScrapedImage}
    (h : usableImg used img = true) : reusableImg img = true := by
  unfold usableImg at h
  simp only [Bool.and_eq_true] at h
  obtain ⟨⟨ht, _⟩, hsvg⟩ := h
  unfold reusableImg
  simp [ht, hsvg]

/-- C5: with one user-uploaded non-vector image and two product non-vector
images in the pool (all with distinct truthy paths), four sequential
product-category selections return the user upload, then each product
image exactly once in pool order, and on the fourth call the user upload
again by reuse — never no image. -/
theorem c5_selector_scenario
    (imgs : List ScrapedImage) (u p1 p2 : ScrapedImage)
    (hu : byCat imgs .user_upload = [u])
    (hp : byCat imgs .product = [p1, p2])
    (hru : reusableImg u = true) (hr1 : reusableImg p1 = true) (hr2 : reusableImg p2 = true)
    (d01 : pathOf u ≠ pathOf p1) (d02 : pathOf u ≠ pathOf p2) (d12 : pathOf p1 ≠ pathOf p2) :
    getImageForCategory imgs [] (some .product) = (some u, [pathOf u]) ∧
    getImageForCategory imgs [pathOf u] (some .product) = (some p1, [pathOf p1, pathOf u]) ∧
    getImageForCategory imgs [pathOf p1, pathOf u] (some .product) =
      (some p2, [pathOf p2, pathOf p1, pathOf u]) ∧
    getImageForCategory imgs [pathOf p2, pathOf p1, pathOf u] (some .product) =
      (some u, [pathOf p2, pathOf p1, pathOf u]) ∧
    u ≠ p1 ∧ u ≠ p2 ∧ p1 ≠ p2 := by
  refine ⟨?_, ?_, ?_, ?_, ?_, ?_, ?_⟩
  · have h1 : usableImg [] u = true := usable_of_reusable hru (by simp)
    unfold getImageForCategory
    rw [hu, List.find?_cons_of_pos _ h1]
  · have h1 : usableImg [pathOf u] u = false := usable_false_of_mem (by simp)
    have h2 : usableImg [pathOf u] p1 = true := by
      refine usable_of_reusable hr1 ?_
      simp only [List.mem_singleton]
      exact fun h => d01 h.symm
    unfold getImageForCategory
    rw [hu, List.find?_cons_of_neg _ (by simp [h1])]
    dsimp only [List.find?]
    rw [hp, List.find?_cons_of_pos _ h2]
  · have h1 : usableImg [pathOf p1, pathOf u] u = false := usable_false_of_mem (by simp)
    have h2 : usableImg [pathOf p1, pathOf u] p1 = false := usable_false_of_mem (by simp)
    have h3 : usableImg [pathOf p1, pathOf u] p2 = true := by
      refine usable_of_reusable hr2 ?_
      simp only [List.mem_cons, List.mem_singleton, List.not_mem_nil]
      rintro (h | h | h)
      · exact d12 h.symm
      · exact d02 h.symm
      · exact h
    unfold getImageForCategory
    rw [hu, List.find?_cons_of_neg _ (by simp [h1])]
    dsimp only [List.find?]
    rw [hp, List.find?_cons_of_neg _ (by simp [h2]), List.find?_cons_of_pos _ h3]
  · have h1 : usableImg [pathOf p2, pathOf p1, pathOf u] u = false :=
      usable_false_of_mem (by simp)
    have h2 : usableImg [pathOf p2, pathOf p1, pathOf u] p1 = false :=
      usable_false_of_mem (by simp)
    have h3 : usableImg [pathOf p2, pathOf p1, pathOf u] p2 = false :=
      usable_false_of_mem (by simp)
    unfold getImageForCategory
    rw [hu, List.find?_cons_of_neg _ (by simp [h1])]
    dsimp only [List.find?]
    rw [hp, List.find?_cons_of_neg _ (by simp [h2]), List.find?_cons_of_neg _ (by simp [h3])]
    dsimp only [List.find?]
    rw [hru]
  · exact fun h => d01 (congrArg pathOf h)
  · exact fun h => d02 (congrArg pathOf h)
  · exact fun h => d12 (congrArg pathOf h)

/-- C5 witness: the scenario on the concrete three-image pool. -/
theorem c5_selector_scenario_witness :
    getImageForCategory poolImgs [] (some .product) = (some uploadImg, [pathOf uploadImg]) ∧
    getImageForCategory poolImgs [pathOf uploadImg] (some .product) =
      (some prodImg1, [pathOf prodImg1, pathOf uploadImg]) ∧
    getImageForCategory poolImgs [pathOf prodImg1, pathOf uploadImg] (some .product) =
      (some prodImg2, [pathOf prodImg2, pathOf prodImg1, pathOf uploadImg]) ∧
    getImageForCategory poolImgs [pathOf prodImg2, pathOf prodImg1, pathOf uploadImg]
        (some .product) =
      (some uploadImg, [pathOf prodImg2, pathOf prodImg1, pathOf uploadImg]) ∧
    uploadImg ≠ prodImg1 ∧ uploadImg ≠ prodImg2 ∧ prodImg1 ≠ prodImg2 :=
  c5_selector_scenario poolImgs uploadImg prodImg1 prodImg2
    (by decide) (by decide) (by decide) (by decide) (by decide)
    (by decide) (by decide) (by decide)

theorem getImage_none_iff (imgs : List ScrapedImage) (used : List String) (c : ImageCategory) :
    (getImageForCategory imgs used (some c)).1 = none ↔
      ((byCat imgs .user_upload).find? (usableImg used) = none ∧
       (byCat imgs c).find? (usableImg used) = none ∧
       (byCat imgs .user_upload).find? reusableImg = none ∧
       (byCat imgs c).find? reusableImg = none) := by
  unfold getImageForCategory
  cases h1 : (byCat imgs .user_upload).find? (usableImg used) with
  | some i => simp
  | none =>
    dsimp only
    cases h2 : (byCat imgs c).find? (usableImg used) with
    | some i => simp
    | none =>
      cases h3 : (byCat imgs .user_upload).find? reusableImg with
      | some i => simp
      | none =>
        cases h4 : (byCat imgs c).find? reusableImg with
        | some i => simp
        | none => simp

/-- C6 counterexample: with the requested category unspecified, the source
returns no image straight after the unused-image scans — there is no reuse
fallback in that branch.  Here the pool holds one user-uploaded non-vector
image that has already been used: the claim demands it be returned by
reuse, but the selection returns none. -/
theorem c6_counterexample_unspecified_no_reuse :
    (getImageForCategory [uploadImg] ["u.png"] none).1 = none ∧
    reusableImg uploadImg = true := by
  constructor
  · decide
  · decide

/-- C6 (amended): for a specified category the selection returns no image
exactly when no non-vector image with a truthy path exists among the user
uploads or the requested category — otherwise it falls back to reuse,
preferring a user-uploaded image over one of the requested category.  For
an unspecified category there is no reuse fallback: when the user-upload
pass and the hero/product/team/office scans find no unused image, the
selection returns no image even if reusable images exist. -/
theorem c6_reuse_fallback :
    (∀ (imgs : List ScrapedImage) (used : List String) (c : ImageCategory),
        (getImageForCategory imgs used (some c)).1 = none ↔
          (∀ i ∈ imgs, (i.category = .user_upload ∨ i.category = c) →
            reusableImg i = false)) ∧
    (∀ (imgs : List ScrapedImage) (used : List String) (c : ImageCategory) (v : ScrapedImage),
        (byCat imgs .user_upload).find? (usableImg used) = none →
        (byCat imgs c).find? (usableImg used) = none →
        (byCat imgs .user_upload).find? reusableImg = some v →
        getImageForCategory imgs used (some c) = (some v, used)) ∧
    (∀ (imgs : List ScrapedImage) (used : List String) (c : ImageCategory) (v : ScrapedImage),
        (byCat imgs .user_upload).find? (usableImg used) = none →
        (byCat imgs c).find? (usableImg used) = none →
        (byCat imgs .user_upload).find? reusableImg = none →
        (byCat imgs c).find? reusableImg = some v →
        getImageForCategory imgs used (some c) = (some v, used)) ∧
    (∀ (imgs : List ScrapedImage) (used : List String),
        (byCat imgs .user_upload).find? (usableImg used) = none →
        (byCat imgs .hero).find? (usableImg used) = none →
        (byCat imgs .product).find? (usableImg used) = none →
        (byCat imgs .team).find? (usableImg used) = none →
        (byCat imgs .office).find? (usableImg used) = none →
        getImageForCategory imgs used none = (none, used)) := by
  refine ⟨?_, ?_, ?_, ?_⟩
  · intro imgs used c
    rw [getImage_none_iff]
    constructor
    · rintro ⟨_, _, n3, n4⟩ i hi hcat
      rcases hcat with hcat | hcat
      · have hmem : i ∈ byCat imgs .user_upload :=
          List.mem_filter.mpr ⟨hi, by simp [hcat]⟩
        have := List.find?_eq_none.mp n3 i hmem
        simpa using this
      · have hmem : i ∈ byCat imgs c :=
          List.mem_filter.mpr ⟨hi, by simp [hcat]⟩
        have := List.find?_eq_none.mp n4 i hmem
        simpa using this
    · intro hall
      have hup : ∀ i ∈ byCat imgs .user_upload, reusableImg i = false := by
        intro i hmem
        obtain ⟨hi, hcat⟩ := List.mem_filter.mp hmem
        exact hall i hi (Or.inl (by simpa using hcat))
      have hct : ∀ i ∈ byCat imgs c, reusableImg i = false := by
        intro i hmem
        obtain ⟨hi, hcat⟩ := List.mem_filter.mp hmem
        exact hall i hi (Or.inr (by simpa using hcat))
      refine ⟨?_, ?_, ?_, ?_⟩
      · refine List.find?_eq_none.mpr (fun i hm hu => ?_)
        have ht := reusable_of_usable hu
        rw [hup i hm] at ht
        simp at ht
      · refine List.find?_eq_none.mpr (fun i hm hu => ?_)
        have ht := reusable_of_usable hu
        rw [hct i hm] at ht
        simp at ht
      · refine List.find?_eq_none.mpr (fun i hm hr => ?_)
        rw [hup i hm] at hr
        simp at hr
      · refine List.find?_eq_none.mpr (fun i hm hr => ?_)
        rw [hct i hm] at hr
        simp at hr
  · intro imgs used c v h1 h2 h3
    unfold getImageForCategory
    rw [h1]
    dsimp only
    rw [h2, h3]
  · intro imgs used c v h1 h2 h3 h4
    unfold getImageForCategory
    rw [h1]
    dsimp only
    rw [h2, h3, h4]
  · intro imgs used h1 hh hp ht ho
    unfold getImageForCategory
    rw [h1]
    dsimp only
    rw [hh, hp, ht, ho]
    rfl

/-- C6 witness: part two of the amended theorem on a pool of one used
user-uploaded image with a specified category — the used upload is
returned by reuse. -/
theorem c6_reuse_fallback_witness :
    getImageForCategory [uploadImg] ["u.png"] (some .product) = (some uploadImg, ["u.png"]) :=
  c6_reuse_fallback.2.1 [uploadImg] ["u.png"] .product uploadImg
    (by decide) (by decide) (by decide)

/-! ### Theorems: palette-role assignment (C8) -/

/-- C8: the palette classifier flags pure white and pure black as neutral,
and the role assignment of `_extract_shape_colors` never puts a neutral
color (pure white, pure black, or a low-saturation very bright / very dark
gray) into the primary, secondary or accent role, for every multiset of
observed fill/text/background colors. -/
theorem c8_neutral_roles :
    is_neutral "#ffffff" = true ∧ is_neutral "#000000" = true ∧
    ∀ fills texts bgs : List String,
      (∀ cl, (buildPalette fills texts bgs).primary = some cl → is_neutral cl = false) ∧
      (∀ cl, (buildPalette fills texts bgs).secondary = some cl → is_neutral cl = false) ∧
      (∀ cl, (buildPalette fills texts bgs).accent = some cl → is_neutral cl = false) := by
  refine ⟨by decide, by decide, ?_⟩
  intro fills texts bgs
  refine ⟨?_, ?_, ?_⟩ <;> intro cl hcl
  · replace hcl : (paletteAccent fills texts bgs).get? 0 = some cl := hcl
    have := (List.mem_filter.mp (List.get?_mem hcl)).2
    simpa using this
  · replace hcl : (paletteAccent fills texts bgs).get? 1 = some cl := hcl
    have := (List.mem_filter.mp (List.get?_mem hcl)).2
    simpa using this
  · replace hcl : (paletteAccent fills texts bgs).get? 2 = some cl := hcl
    have := (List.mem_filter.mp (List.get?_mem hcl)).2
    simpa using this

/-- C8 witness: a single observed red fill becomes the primary role, and
the theorem concludes it is not neutral. -/
theorem c8_neutral_roles_witness : is_neutral "#FF0000" = false :=
  (c8_neutral_roles.2.2 ["#FF0000"] [] []).1 "#FF0000" (by decide)

/-! ### Theorems: extractor error behavior and defaults (C2) -/

theorem mem_bumpCount {acc : List (String × Nat)} {k : String} {n : Nat}
    {fc : String × Nat} (h : fc ∈ bumpCount acc k n) :
    fc.1 = k ∨ ∃ m, (fc.1, m) ∈ acc := by
  induction acc with
  | nil =>
    simp [bumpCount] at h
    exact Or.inl (by rw [h])
  | cons hd tl ih =>
    obtain ⟨k', m⟩ := hd
    unfold bumpCount at h
    by_cases he : k' = k
    · rw [if_pos he] at h
      rcases List.mem_cons.mp h with h | h
      · exact Or.inl (by rw [h]; exact he)
      · exact Or.inr ⟨fc.2, List.mem_cons_of_mem _ h⟩
    · rw [if_neg he] at h
      rcases List.mem_cons.mp h with h | h
      · exact Or.inr ⟨m, by rw [h]; exact List.mem_cons_self _ _⟩
      · rcases ih h with h' | ⟨m', hm'⟩
        · exact Or.inl h'
        · exact Or.inr ⟨m', List.mem_cons_of_mem _ hm'⟩

theorem foldl_bump_key_mem :
    ∀ (l : List String) (acc : List (String × Nat)) (fc : String × Nat),
      fc ∈ l.foldl (fun a s => bumpCount a s 1) acc →
      fc.1 ∈ l ∨ ∃ m, (fc.1, m) ∈ acc := by
  intro l
  induction l with
  | nil =>
    intro acc fc h
    exact Or.inr ⟨fc.2, h⟩
  | cons s rest ih =>
    intro acc fc h
    rcases ih (bumpCount acc s 1) fc h with h' | ⟨m, hm⟩
    · exact Or.inl (List.mem_cons_of_mem _ h')
    · rcases mem_bumpCount hm with h' | ⟨m', hm'⟩
      · exact Or.inl (h' ▸ List.mem_cons_self _ _)
      · exact Or.inr ⟨m', hm'⟩

theorem countOcc_key_mem {l : List String} {fc : String × Nat}
    (h : fc ∈ countOcc l) : fc.1 ∈ l := by
  rcases foldl_bump_key_mem l [] fc h with h' | ⟨m, hm⟩
  · exact h'
  · simp at hm

theorem familyCountsGo_ok :
    ∀ (fonts acc : List (String × Nat)),
      (∀ fc ∈ fonts, pySplitHead fc.1 ≠ none ∨ fc.1 = "") →
      ∃ l, familyCountsGo fonts acc = .ok l := by
  intro fonts
  induction fonts with
  | nil =>
    intro acc _
    exact ⟨acc, rfl⟩
  | cons fc rest ih =>
    intro acc h
    have hrest : ∀ fc' ∈ rest, pySplitHead fc'.1 ≠ none ∨ fc'.1 = "" :=
      fun fc' hm => h fc' (List.mem_cons_of_mem _ hm)
    unfold familyCountsGo
    by_cases he : fc.1 = ""
    · rw [if_pos he]
      exact ih acc hrest
    · rw [if_neg he]
      rcases h fc (List.mem_cons_self _ _) with hsp | hsp
      · cases hs : pySplitHead fc.1 with
        | none => exact absurd hs hsp
        | some base =>
          dsimp only
          by_cases hbe : base = ""
          · rw [if_pos hbe]
            exact ih acc hrest
          · rw [if_neg hbe]
            exact ih (bumpCount acc base fc.2) hrest
      · exact absurd hsp he

theorem extract_fonts_ok (pkg : PptxPackage)
    (h : ∀ f ∈ fontObservations pkg, pySplitHead f ≠ none) :
    ∃ x, extract_fonts_from_shapes pkg = .ok x := by
  unfold extract_fonts_from_shapes
  cases hobs : fontObservations pkg with
  | nil => exact ⟨none, rfl⟩
  | cons o os =>
    dsimp only
    have hfam : ∀ fc ∈ countOcc (o :: os), pySplitHead fc.1 ≠ none ∨ fc.1 = "" := by
      intro fc hm
      exact Or.inl (h fc.1 (hobs ▸ countOcc_key_mem hm))
    obtain ⟨l, hl⟩ := familyCountsGo_ok (countOcc (o :: os)) [] hfam
    rw [hl]
    dsimp only
    cases (sortByCountDesc l).head? with
    | none => exact ⟨none, rfl⟩
    | some bp => exact ⟨some (fontsFromBase (countOcc (o :: os)) bp.1), rfl⟩

/-- C2 counterexample: extraction raises on two concrete inputs the claim
covers.  Bytes that do not parse as a package (for example the empty byte
string) make `PptxTemplateExtractor.__init__` raise inside
`Presentation(io.BytesIO(file_content))`; and even a well-formed package
whose one shape carries the truthy whitespace-only font name `" "` makes
`_extract_fonts_from_shapes` raise an uncaught `IndexError` at
`font.split()[0]`.  In neither case is a `TemplateProfile` returned. -/
theorem c2_counterexample_malformed_raises :
    extract_template_styles TemplateBytes.malformed "broken.pptx" "out" =
      .error "PackageNotFoundError" ∧
    extract_template_styles (.parsed spaceFontPkg) "spacefont.pptx" "out" =
      .error "IndexError" :=
  ⟨rfl, rfl⟩

/-- C2 (amended): extraction can raise in two places — at construction for
bytes that do not parse as a package, and inside the theme-font pass for a
package holding a truthy whitespace-only font name.  For every package
that parses and whose collected font names each hold a non-whitespace
token, `extract` returns a `TemplateProfile` without raising; a package
with a missing theme part keeps the default theme colors in any profile it
returns, and a package with nothing extractable yields the fully defaulted
`TemplateProfile` (source name and stored bytes aside). -/
theorem c2_extract_defaults (pkg : PptxPackage) (fname outDir : String) :
    ((∀ f ∈ fontObservations pkg, pySplitHead f ≠ none) →
      ∃ tp, extract_template_styles (.parsed pkg) fname outDir = .ok tp) ∧
    (pkg.theme = none →
      ∀ tp, extract_template_styles (.parsed pkg) fname outDir = .ok tp →
        tp.theme_colors = {}) ∧
    (pkg = {} →
      extract_template_styles (.parsed pkg) fname outDir =
        .ok { source_file := fname, template_bytes := some (TemplateBytes.parsed {}) }) := by
  refine ⟨?_, ?_, ?_⟩
  · intro h
    obtain ⟨x, hx⟩ := extract_fonts_ok pkg h
    show ∃ tp, extractorExtract pkg fname outDir = .ok tp
    unfold extractorExtract extract_theme_fonts
    rw [hx]
    cases x with
    | none => exact ⟨_, rfl⟩
    | some hb => exact ⟨_, rfl⟩
  · intro hth tp htp
    replace htp : extractorExtract pkg fname outDir = .ok tp := htp
    unfold extractorExtract at htp
    cases hf : extract_theme_fonts pkg with
    | error e =>
      rw [hf] at htp
      exact absurd htp (by simp)
    | ok tf =>
      rw [hf] at htp
      have : tp.theme_colors = extract_theme_colors pkg.theme := by
        injection htp with h1
        rw [← h1]
      rw [this, hth]
      rfl
  · intro h
    subst h
    rfl

/-- C2 witness: the amended theorem on the empty package, discharging its
hypotheses there. -/
theorem c2_extract_defaults_witness :
    extract_template_styles (.parsed {}) "t.pptx" "out" =
      .ok { source_file := "t.pptx", template_bytes := some (TemplateBytes.parsed {}) } :=
  (c2_extract_defaults {} "t.pptx" "out").2.2 rfl

/-! ### Theorems: brand profile merge (C3) -/

/-- C3 (spec-modelled, `merge_with_template` is absent from `src/`): when a
scraped profile and a template profile are merged, the colors and fonts of
the result are those derived from the template — they do not depend on the
scraped profile's colors or fonts at all. -/
theorem c3_template_precedence (b b' : BrandProfile) (t : TemplateProfile) :
    (merge_with_template b t).colors = colorsFromTemplate t ∧
    (merge_with_template b t).fonts = fontsFromTemplate t ∧
    (merge_with_template b t).colors = (merge_with_template b' t).colors ∧
    (merge_with_template b t).fonts = (merge_with_template b' t).fonts :=
  ⟨rfl, rfl, rfl, rfl⟩
